import Mathlib

/-!
A shallow embedding of the terminal event-loop engine in
`src/tools/tui/loop.go` (package `tui` of the kitty repository snapshot).

Conventions of the embedding:

* Go machine integers become `Nat` (unsigned) or `Int` (signed); the one
  place where wraparound can matter, the `uint64` timer-id counter, keeps an
  explicit `% 2 ^ 64`.
* `time.Time` / `time.Duration` are modelled as `Nat` instants/durations;
  `t.After(u)` is `t > u`, `t.Add(d)` is `t + d`, `now.Add(interval)` is
  `now + interval`.
* Go's `error` results become `Option GoError` (`none` = `nil`) or
  `Except GoError`; a nil-pointer dereference (a Go runtime panic) is the
  distinguished value `GoError.nilDeref`.
* External collaborators (terminal controller, select, pipe, OS signals)
  are represented by explicit result parameters or environment records:
  the loop's behaviour is a function of what those calls would return.
* Application callbacks are passed as explicit function parameters instead
  of record fields, so loop states keep decidable equality; a callback both
  transforms the loop state and produces its Go results.
* The `escape_code_parser` field (the external escape-sequence decoder) and
  `terminal_options` are not needed by any verified statement; the decoder
  is out of scope per the design and the enter/exit escape-code strings it
  would produce are the abstract byte lists below.
-/

namespace TuiLoop

/-- The signals the loop deals with; `SIGNULL` is the zero value used for
"no death signal recorded". -/
inductive Signal where
  | SIGNULL
  | SIGINT
  | SIGTERM
  | SIGTSTP
  | SIGHUP
  | SIGWINCH
  | SIGPIPE
deriving DecidableEq, Repr

/-- The errno values distinguished by `read/write_ignoring_temporary_errors`
in loop.go lines 20-40, plus a representative non-temporary errno. -/
inductive Errno where
  | EINTR
  | EAGAIN
  | EWOULDBLOCK
  | EIO
deriving DecidableEq, Repr

/-- Go `error` values that the embedded functions can return.  Setup
failures keep which step failed; `eof` is `io.EOF`; `nilDeref` marks a Go
nil-pointer dereference panic; `cbErr n` is a distinct error returned by an
application callback. -/
inductive GoError where
  | pipeFailed
  | openTermFailed
  | setRawFailed
  | noControllingTerminal
  | nilDeref
  | eof
  | errno (e : Errno)
  | cbErr (n : Nat)
deriving DecidableEq, Repr

/-- The `unix.Winsize` result of `tty.Term.GetSize`. -/
structure WinSize where
  Row : Nat
  Col : Nat
  Xpixel : Nat
  Ypixel : Nat
deriving DecidableEq, Repr

/-- `ScreenSize` from loop.go lines 42-45; all fields are Go `uint`. -/
structure ScreenSize where
  WidthCells : Nat
  HeightCells : Nat
  WidthPx : Nat
  HeightPx : Nat
  CellWidth : Nat
  CellHeight : Nat
  updated : Bool
deriving DecidableEq, Repr

/-- The controlling terminal handle (`tty.Term`, repository code outside
src/).  Modelled from the spec: the only capability the verified code
needs is "get-size -> (rows, cols, xpixel, ypixel)", which can fail, so a
`Term` is represented by the result its `GetSize` call would produce. -/
structure Term where
  size_result : Except GoError WinSize

/-- `timer` from loop.go lines 50-56.  The callback function field is not
part of the state (callbacks are passed explicitly where needed and their
invocations are recorded as fired-id lists); `TimerId` is `Nat` with the
`uint64` wraparound made explicit at the increment site. -/
structure Timer where
  interval : Nat
  deadline : Nat
  repeats : Bool
  id : Nat
deriving DecidableEq, Repr

/-- `timer.update_deadline` from loop.go lines 58-60. -/
def Timer.update_deadline (self : Timer) (now : Nat) : Timer :=
  { self with deadline := now + self.interval }

/-- The mutable state of `Loop` from loop.go lines 62-73 (callback fields
and the external decoder omitted, see the header note). -/
structure Loop where
  controlling_term : Option Term
  screen_size : ScreenSize
  keep_going : Bool
  flush_write_buf : Bool
  death_signal : Signal
  exit_code : Int
  write_buf : List Nat
  timers : List Timer
  timer_id_counter : Nat

/-- The zero `ScreenSize` (Go zero value). -/
def zero_screen_size : ScreenSize :=
  { WidthCells := 0, HeightCells := 0, WidthPx := 0, HeightPx := 0,
    CellWidth := 0, CellHeight := 0, updated := false }

/-- `CreateLoop` from loop.go lines 221-232: nil controlling terminal,
empty timer list, all other fields Go zero values.  (The constructor also
wires the decoder callbacks and sets `alternate_screen`, both outside this
embedding.) -/
def CreateLoop : Loop :=
  { controlling_term := none
    screen_size := zero_screen_size
    keep_going := false
    flush_write_buf := false
    death_signal := Signal.SIGNULL
    exit_code := 0
    write_buf := []
    timers := []
    timer_id_counter := 0 }

/-! ### Screen size (loop.go lines 100-115 and 268-274) -/

/-- `update_screen_size` from loop.go lines 100-115, translated branch by
branch.  Note the guard in the source is `if self.controlling_term != nil`:
a PRESENT terminal takes the error return whose message reads "No
controlling terminal cannot update screen size", and a nil terminal falls
through to `self.controlling_term.GetSize()`, a method call that
dereferences the nil pointer (modelled as `GoError.nilDeref`).  The
lines 104-114 body that queries the size and stores it with
`updated := true` is therefore unreachable; it is still translated below,
guarded by the source's control flow.  (Go `uint` division by zero in the
per-cell fields would itself panic; `Nat` division stands in, and no
verified statement reaches it.) -/
def Loop.update_screen_size (self : Loop) : Loop × Option GoError :=
  if self.controlling_term.isSome then
    (self, some GoError.noControllingTerminal)
  else
    match self.controlling_term with
    | none => (self, some GoError.nilDeref)
    | some term =>
      match term.size_result with
      | Except.error e => (self, some e)
      | Except.ok ws =>
        ({ self with screen_size :=
            { HeightCells := ws.Row, WidthCells := ws.Col
              HeightPx := ws.Ypixel, WidthPx := ws.Xpixel
              CellWidth := ws.Xpixel / ws.Col, CellHeight := ws.Ypixel / ws.Row
              updated := true } }, none)

/-- `ScreenSize` (the method) from loop.go lines 268-274: return the cached
size when fresh, otherwise call `update_screen_size` and return whatever
`self.screen_size` then holds together with the error.  The updated loop
state is returned as well since the Go method mutates its receiver. -/
def Loop.ScreenSize (self : Loop) : ScreenSize × Loop × Option GoError :=
  if self.screen_size.updated then
    (self.screen_size, self, none)
  else
    let r := self.update_screen_size
    (r.1.screen_size, r.1, r.2)

/-! ### Write primitives (loop.go lines 31-40 and 464-483) -/

/-- `write_ignoring_temporary_errors` from loop.go lines 31-40, as a
function of the `(n, err)` pair the underlying `unix.Write` call would
return: temporary errnos are converted to zero progress with no error
first; then a zero-byte result surfaces as `io.EOF`; anything else passes
through. -/
def write_ignoring_temporary_errors (n : Int) (err : Option Errno) :
    Int × Option GoError :=
  if err = some Errno.EINTR ∨ err = some Errno.EAGAIN ∨ err = some Errno.EWOULDBLOCK then
    (0, none)
  else if n = 0 then
    (0, some GoError.eof)
  else
    (n, err.map GoError.errno)

/-- Go's builtin `copy(dst, src)`: overwrite the first
`min dst.length src.length` entries of `dst` with those of `src`,
returning the modified `dst`. -/
def go_copy (dst src : List Nat) : List Nat :=
  src.take dst.length ++ dst.drop src.length

/-- The buffer-shift step of `write_to_tty`, loop.go lines 475-481: after
`n` bytes were written, reslice the buffer to the remainder's length and
copy the remainder (the unwritten suffix) to its head. -/
def write_buf_shift (n : Nat) (buf : List Nat) : List Nat :=
  let remainder := buf.drop n
  if remainder.length > 0 then go_copy (buf.take remainder.length) remainder
  else []

/-- `write_to_tty` from loop.go lines 464-483, as a function of the raw
`(n, err)` result of the single `unix.Write` call it performs: no-op on an
empty buffer or nil terminal; propagate the filtered error; no-op on
`n <= 0`; otherwise shift the unwritten remainder to the buffer head. -/
def Loop.write_to_tty (raw : Int × Option Errno) (self : Loop) :
    Loop × Option GoError :=
  if self.write_buf.length == 0 || self.controlling_term.isNone then
    (self, none)
  else
    let r := write_ignoring_temporary_errors raw.1 raw.2
    match r.2 with
    | some e => (self, some e)
    | none =>
      if r.1 ≤ 0 then (self, none)
      else ({ self with write_buf := write_buf_shift r.1.toNat self.write_buf }, none)

/-! ### Output queueing and loop control surface
(loop.go lines 439-462) -/

/-- `queue_write_to_tty` from loop.go lines 439-441. -/
def Loop.queue_write_to_tty (self : Loop) (data : List Nat) : Loop :=
  { self with write_buf := self.write_buf ++ data }

/-- `ExitCode` from loop.go lines 451-453. -/
def Loop.ExitCode (self : Loop) : Int :=
  self.exit_code

/-- `Quit` from loop.go lines 459-462. -/
def Loop.Quit (self : Loop) (exit_code : Int) : Loop :=
  { self with exit_code := exit_code, keep_going := false }

/-! ### Signal handlers (loop.go lines 181-219) -/

/-- `on_SIGINT` from loop.go lines 181-185. -/
def Loop.on_SIGINT (self : Loop) : Loop × Option GoError :=
  ({ self with death_signal := Signal.SIGINT, keep_going := false }, none)

/-- `on_SIGTERM` from loop.go lines 204-208. -/
def Loop.on_SIGTERM (self : Loop) : Loop × Option GoError :=
  ({ self with death_signal := Signal.SIGTERM, keep_going := false }, none)

/-- `on_SIGTSTP` from loop.go lines 210-212: a no-op. -/
def Loop.on_SIGTSTP (self : Loop) : Loop × Option GoError :=
  (self, none)

/-- `on_SIGHUP` from loop.go lines 214-219: additionally suppresses the
shutdown flush. -/
def Loop.on_SIGHUP (self : Loop) : Loop × Option GoError :=
  ({ self with
      flush_write_buf := false
      death_signal := Signal.SIGHUP
      keep_going := false }, none)

/-! ### Key events and the input dispatcher (loop.go lines 126-149)

The `KeyEvent` type and its `MatchesPressOrRepeat` method live in the
repository's key-handling code, which is not under src/.  Both are
modelled from the spec: a key event has an identity-plus-modifiers
(resolved here to the shortcut string it would match, e.g. "ctrl+c"), a
press/repeat/release kind, resolved text, and a mutable `Handled` flag;
`MatchesPressOrRepeat spec` holds exactly when the event is a press or a
repeat of the key the shortcut spec names. -/

/-- Press / repeat / release kind of a key event (modelled from the spec). -/
inductive KeyEventType where
  | press
  | repeated
  | release
deriving DecidableEq, Repr, BEq

/-- Modelled from the spec: a decoded key event. -/
structure KeyEvent where
  key : String
  kind : KeyEventType
  Text : String
  Handled : Bool
deriving DecidableEq, Repr

/-- The shortcut string for control-c. -/
def ctrl_c : String := "ctrl+c"

/-- The shortcut string for control-z. -/
def ctrl_z : String := "ctrl+z"

/-- Modelled from the spec: `KeyEvent.MatchesPressOrRepeat` is true when
the event is a press or repeat whose identity-plus-modifiers match the
shortcut spec. -/
def KeyEvent.MatchesPressOrRepeat (self : KeyEvent) (sc : String) : Bool :=
  (self.kind == KeyEventType.press || self.kind == KeyEventType.repeated)
    && self.key == sc

/-- The result of one `handle_key_event` dispatch: the mutated loop, the
mutated event (Go passes `*KeyEvent`), the text `OnText` was invoked with
(`none` when `OnText` was never invoked), and the returned error. -/
structure KeyDispatchResult where
  loop : Loop
  ev : KeyEvent
  text_call : Option String
  err : Option GoError

/-- The default-binding tail of `handle_key_event`, loop.go lines 137-148:
runs when there is no application key callback or it left the event
unhandled.  `onTextSet` says whether an `OnText` callback is installed;
the `OnText` invocation itself is recorded in `text_call` (the Go call is
`self.OnText(self, ev.Text, true, false)`), with its own effect on the
loop outside this claim's scope. -/
def Loop.handle_key_event_defaults (onTextSet : Bool) (self : Loop)
    (ev : KeyEvent) : KeyDispatchResult :=
  if ev.MatchesPressOrRepeat ctrl_c then
    let ev := { ev with Handled := true }
    let r := self.on_SIGINT
    { loop := r.1, ev := ev, text_call := none, err := r.2 }
  else if ev.MatchesPressOrRepeat ctrl_z then
    let ev := { ev with Handled := true }
    let r := self.on_SIGTSTP
    { loop := r.1, ev := ev, text_call := none, err := r.2 }
  else if !ev.Text.isEmpty && onTextSet then
    { loop := self, ev := ev, text_call := some ev.Text, err := none }
  else
    { loop := self, ev := ev, text_call := none, err := none }

/-- `handle_key_event` from loop.go lines 126-149.  The application's
`OnKeyEvent` callback is a state transformer on `(loop, event)` returning
the Go error; when it errors, dispatch stops; when it marks the event
handled, dispatch returns without consulting the default bindings. -/
def Loop.handle_key_event
    (onKey : Option (Loop → KeyEvent → Loop × KeyEvent × Option GoError))
    (onTextSet : Bool) (self : Loop) (ev : KeyEvent) : KeyDispatchResult :=
  match onKey with
  | some cb =>
    let r := cb self ev
    match r.2.2 with
    | some e => { loop := r.1, ev := r.2.1, text_call := none, err := some e }
    | none =>
      if r.2.1.Handled then
        { loop := r.1, ev := r.2.1, text_call := none, err := none }
      else
        Loop.handle_key_event_defaults onTextSet r.1 r.2.1
  | none => Loop.handle_key_event_defaults onTextSet self ev

/-! ### Timer queue (loop.go lines 234-251 and 511-545) -/

/-- The boolean comparator Go's `sort.SliceStable` closure uses in
`sort_timers` (loop.go line 544), lifted to non-strict form: a stable sort
with less-than `a.deadline.Before(b.deadline)` computes the same list as a
stable merge sort with `a.deadline <= b.deadline`. -/
def deadline_le (a b : Timer) : Bool :=
  a.deadline ≤ b.deadline

/-- `sort_timers` from loop.go lines 543-545: stable sort ascending by
deadline. -/
def sort_timers (ts : List Timer) : List Timer :=
  ts.mergeSort deadline_le

/-- `AddTimer` from loop.go lines 234-241.  `time.Now()` is the explicit
`now` parameter; the callback argument is tracked outside the state (see
`Timer`).  The `uint64` counter increment carries its wraparound. -/
def Loop.AddTimer (self : Loop) (now : Nat) (interval : Nat) (repeats : Bool) :
    Loop × Nat :=
  let ctr := (self.timer_id_counter + 1) % 2 ^ 64
  let t : Timer := { interval := interval, repeats := repeats, id := ctr,
                     deadline := now + interval }
  ({ self with timer_id_counter := ctr,
               timers := sort_timers (self.timers ++ [t]) }, t.id)

/-- The scan of loop.go lines 244-250: remove the first timer whose id
matches, reporting whether one was found.  (Go does this with an indexed
loop and an in-place `append(timers[:i], timers[i+1:]...)` shift.) -/
def remove_first (ts : List Timer) (id : Nat) : List Timer × Bool :=
  match ts with
  | [] => ([], false)
  | t :: rest =>
    if t.id = id then (rest, true)
    else
      let r := remove_first rest id
      (t :: r.1, r.2)

/-- `RemoveTimer` from loop.go lines 243-251. -/
def Loop.RemoveTimer (self : Loop) (id : Nat) : Loop × Bool :=
  let r := remove_first self.timers id
  ({ self with timers := r.1 }, r.2)

/-- One pass of the dispatch scan, loop.go lines 514-527: walk the timers
in order; for each whose deadline has passed (`now.After(deadline)`, i.e.
`now > deadline`) record its callback invocation; repeating timers get
`deadline = now + interval` and set the `updated` flag, one-shot timers
are marked for deferred removal.  Returns (timers with refreshed
deadlines, fired ids in invocation order, marked remove ids, updated
flag).  Timer callbacks are modelled as returning nil (a callback error
would abort the scan; no claim about the collection involves one). -/
def dispatch_scan (now : Nat) : List Timer → List Timer × List Nat × List Nat × Bool
  | [] => ([], [], [], false)
  | t :: ts =>
    let r := dispatch_scan now ts
    if now > t.deadline then
      if t.repeats then
        (t.update_deadline now :: r.1, t.id :: r.2.1, r.2.2.1, true)
      else
        (t :: r.1, t.id :: r.2.1, t.id :: r.2.2.1, r.2.2.2)
    else
      (t :: r.1, r.2.1, r.2.2.1, r.2.2.2)

/-- The comparator `sort_timers` would use on the rebuilt collection,
which is a `[]*timer` possibly holding nil entries: Go would dereference
a nil pointer there and panic.  The `none` branches below are total
stand-ins; no verified statement sorts a collection containing `none`
(the exhibited counterexample for the rebuild bug has `updated = false`,
so the sort never runs on one). -/
def deadline_le_opt (a b : Option Timer) : Bool :=
  match a, b with
  | some a, some b => a.deadline ≤ b.deadline
  | _, _ => true

/-- `dispatch_timers` from loop.go lines 511-541, as a function of the
scan time and the (nil-free) timer collection.  The rebuild on lines
528-536 is translated literally: `make([]*timer, n-r)` allocates a slice
of LENGTH `n - r` whose entries are zero-valued, i.e. nil pointers
(`List.replicate (n - r) none`), and the survivors are APPENDED after
them; `remove` is a map, so `r` counts distinct marked ids.  Returns the
rebuilt collection (entries are `Option Timer` because of those nils) and
the fired ids. -/
def dispatch_timers (now : Nat) (ts : List Timer) :
    List (Option Timer) × List Nat :=
  let s := dispatch_scan now ts
  let rm := s.2.2.1.dedup
  let rebuilt : List (Option Timer) :=
    if rm.length > 0 then
      List.replicate (ts.length - rm.length) none
        ++ (s.1.filter (fun t => !rm.contains t.id)).map some
    else
      s.1.map some
  let final := if s.2.2.2 then rebuilt.mergeSort deadline_le_opt else rebuilt
  (final, s.2.1)

/-! ### The output-buffer drain loop (loop.go lines 396-407 with 464-483)

Each main-loop iteration with a non-empty buffer and a writable terminal
performs exactly one `write_to_tty` call (one `unix.Write`), and fires
`OnWriteComplete` when the buffer just became empty.  `drain_loop`
iterates that against a write primitive that accepts up to `k` bytes per
call (`min k buf.length`, i.e. "exactly k" until the final short chunk):
it returns the chunk written by each call, in order, and the number of
`OnWriteComplete` invocations.  The post-write buffer is written here as
`buf.drop n`; the theorem `write_buf_shift_eq_drop` below proves that the
reslice-and-copy `write_buf_shift` performed by `write_to_tty` equals
exactly that drop (the unwritten suffix shifted to the buffer head). -/
def drain_loop (k : Nat) (buf : List Nat) : List (List Nat) × Nat :=
  if h : buf.length = 0 then ([], 0)
  else if hk : k = 0 then ([], 0)
  else
    let n := min k buf.length
    let rest := buf.drop n
    let r := drain_loop k rest
    (buf.take n :: r.1, (if rest.length = 0 then 1 else 0) + r.2)
termination_by buf.length
decreasing_by
  simp only [List.length_drop]
  omega

/-! ### Sequences of timer mutations (for the C7 invariant) -/

/-- A mutation of the timer collection through the loop's control
surface. -/
inductive TimerOp where
  | add (now : Nat) (interval : Nat) (repeats : Bool)
  | remove (id : Nat)

/-- Apply one mutation, returning the id `AddTimer` hands back (if
any). -/
def Loop.apply_timer_op (self : Loop) : TimerOp → Loop × Option Nat
  | TimerOp.add now interval repeats =>
    let r := self.AddTimer now interval repeats
    (r.1, some r.2)
  | TimerOp.remove id =>
    let r := self.RemoveTimer id
    (r.1, none)

/-- Run a whole sequence of mutations, collecting the ids returned by the
`AddTimer` calls, in call order. -/
def Loop.run_timer_ops (self : Loop) : List TimerOp → Loop × List Nat
  | [] => (self, [])
  | op :: ops =>
    let r := self.apply_timer_op op
    let rest := r.1.run_timer_ops ops
    (rest.1, r.2.toList ++ rest.2)

/-- Sorted ascending by deadline. -/
def timers_sorted (ts : List Timer) : Prop :=
  ts.Pairwise (fun a b => a.deadline ≤ b.deadline)

/-! ### Run: boot, iterate, shutdown (loop.go lines 299-437)

`Run` performs external calls (pipe creation, terminal acquisition, raw
mode, select) whose outcomes are supplied by a `RunEnv`; the main
iteration phase (lines 370-434) multiplexes external I/O and is abstracted
as the environment's `loop_result` state transformer — the claims settled
against `Run` concern the boot and shutdown paths around it, and the
operations the iteration phase is built from (`write_to_tty`,
`dispatch_timers`, `handle_key_event`, the signal handlers) are embedded
and verified individually above.  The trace of `RunEvent`s records, in
execution order, the observable steps the temporal claims talk about. -/

/-- Observable steps of one `Run` call. -/
inductive RunEvent where
  | ev_run_init_cb
  | ev_main_loop
  | ev_flush
  | ev_clear_buf
  | ev_queue_finalizer
  | ev_queue_reset
  | ev_final_flush
  | ev_restore
deriving DecidableEq, Repr

/-- Environment for one `Run` call: the results of the external calls.
`pipe_err` is the `os.Pipe()` error, `open_term` the
`tty.OpenControllingTerm()` result, `set_raw` the error of
`ApplyOperations(TCSANOW, SetRaw)`, `loop_result` the aggregate effect of
the main iteration phase on the loop state together with the error that
ended it (`none` = `keep_going` cleared), and `flush_drain` what one
bounded `flush` call leaves of the write buffer. -/
structure RunEnv where
  pipe_err : Option GoError
  open_term : Except GoError Term
  set_raw : Option GoError
  loop_result : Loop → Loop × Option GoError
  flush_drain : List Nat → List Nat

/-- The "enter state" escape codes queued on line 343
(`terminal_options.SetStateEscapeCodes()`, produced by repository code
outside src/).  Abstract non-empty byte list; no verified statement
depends on its contents. -/
def set_state_escape_codes : List Nat := [27]

/-- The "exit state" escape codes queued on line 360
(`ResetStateEscapeCodes()`), abstract like `set_state_escape_codes`. -/
def reset_state_escape_codes : List Nat := [27, 0]

/-- The deferred `RestoreAndClose` of loop.go lines 328-331: restore the
terminal and drop the handle. -/
def restore_term (self : Loop) : Loop :=
  { self with controlling_term := none }

/-- `flush` from loop.go lines 485-509 drains the buffer against the
terminal within a 2-second deadline; how much actually drains depends on
the external select/write results, supplied as `env.flush_drain`.  (The
byte-exact drain behaviour of each inner `write_to_tty` call is verified
separately via `write_buf_shift`/`drain_loop`.) -/
def Loop.flush (env : RunEnv) (self : Loop) : Loop :=
  { self with write_buf := env.flush_drain self.write_buf }

/-- String bytes, for the finalizer write on line 358. -/
def string_bytes (s : String) : List Nat :=
  s.toUTF8.toList.map (fun b => b.toNat)

/-- The shutdown defer of loop.go lines 352-362, in order: flush pending
bytes unless `flush_write_buf` was cleared (only `on_SIGHUP` clears it);
clear the buffer; queue the captured finalizer if non-empty; queue the
reset-state escape codes; one final bounded flush.  Returns the state and
the events in execution order. -/
def Loop.run_shutdown (env : RunEnv) (finalizer : String) (self : Loop) :
    Loop × List RunEvent :=
  let r1 :=
    if self.flush_write_buf then (self.flush env, [RunEvent.ev_flush])
    else (self, ([] : List RunEvent))
  let s2 := { r1.1 with write_buf := ([] : List Nat) }
  let r3 :=
    if !finalizer.isEmpty then
      (s2.queue_write_to_tty (string_bytes finalizer), [RunEvent.ev_queue_finalizer])
    else (s2, ([] : List RunEvent))
  let s4 := r3.1.queue_write_to_tty reset_state_escape_codes
  let s5 := s4.flush env
  (s5, r1.2 ++ RunEvent.ev_clear_buf :: r3.2
        ++ [RunEvent.ev_queue_reset, RunEvent.ev_final_flush])

/-- The event block `run_shutdown` emits, as a function of the flush flag
at shutdown entry and of whether a finalizer string was captured: flush
(iff the flag is still set — only `on_SIGHUP` clears it), buffer clear,
finalizer queue (iff non-empty), reset-codes queue, final flush. -/
def shutdown_events (flush_flag : Bool) (has_finalizer : Bool) : List RunEvent :=
  (if flush_flag then [RunEvent.ev_flush] else [])
    ++ RunEvent.ev_clear_buf
    :: (if has_finalizer then [RunEvent.ev_queue_finalizer] else [])
    ++ [RunEvent.ev_queue_reset, RunEvent.ev_final_flush]

/-- The boot steps of loop.go lines 341-343 that run after raw mode is
set and before `OnInitialize`: set `keep_going` and `flush_write_buf`,
queue the enter-state escape codes.  (The select registration on lines
337-339 is external.) -/
def boot_state (term : Term) (self : Loop) : Loop :=
  ({ self with controlling_term := some term
               keep_going := true
               flush_write_buf := true }).queue_write_to_tty set_state_escape_codes

/-- Lines 364-434 of `Run`: the transient-state resets of lines 366-368
(note: they run AFTER `OnInitialize`), the `for self.keep_going` loop,
then — by defer, in LIFO order — the shutdown sequence (registered line
352) followed by the terminal restore (registered line 328).  `boot_ev`
is the trace accumulated so far. -/
def Loop.run_main (env : RunEnv) (boot_ev : List RunEvent) (finalizer : String)
    (self : Loop) : Loop × List RunEvent × Option GoError :=
  let self := { self with death_signal := Signal.SIGNULL, exit_code := 0 }
  let lr :=
    if self.keep_going then
      let r := env.loop_result self
      (r.1, [RunEvent.ev_main_loop], r.2)
    else (self, ([] : List RunEvent), (none : Option GoError))
  let sd := lr.1.run_shutdown env finalizer
  (restore_term sd.1, boot_ev ++ lr.2.1 ++ sd.2 ++ [RunEvent.ev_restore], lr.2.2)

/-- `Run` from loop.go lines 299-437.  Early returns translated in order:
a pipe error returns it before anything else; a terminal-acquisition
error likewise; from the moment the terminal is acquired the restore
defer (line 328) is armed; a raw-mode failure takes the
`if err != nil { return nil }` branch of line 334, returning NIL while
only the restore defer runs; then the boot state is set, the enter codes
queued, and `OnInitialize` runs — if it errors, its error is returned
with, again, only the restore defer armed (the shutdown defer of line 352
is installed after `OnInitialize` succeeds); otherwise the captured
finalizer is in scope for the shutdown defer and execution continues in
`run_main`.  `on_init_cb` is the `OnInitialize` callback (nil allowed),
returning the finalizer string and an error. -/
def Loop.Run (env : RunEnv)
    (on_init_cb : Option (Loop → Loop × String × Option GoError))
    (self : Loop) : Loop × List RunEvent × Option GoError :=
  match env.pipe_err with
  | some e => (self, [], some e)
  | none =>
    match env.open_term with
    | Except.error e => (self, [], some e)
    | Except.ok term =>
      match env.set_raw with
      | some _ =>
        (restore_term { self with controlling_term := some term },
         [RunEvent.ev_restore], none)
      | none =>
        let booted := boot_state term self
        match on_init_cb with
        | some cb =>
          let r := cb booted
          match r.2.2 with
          | some e =>
            (restore_term r.1, [RunEvent.ev_run_init_cb, RunEvent.ev_restore], some e)
          | none =>
            r.1.run_main env [RunEvent.ev_run_init_cb] r.2.1
        | none =>
          booted.run_main env [] ""

/-! ## Concrete fixtures used by the theorems below -/

/-- A terminal whose `GetSize` reports a 80x24 cell, 640x384 pixel
window. -/
def c1_term : Term :=
  { size_result := Except.ok { Row := 24, Col := 80, Xpixel := 640, Ypixel := 384 } }

/-- A loop state with a PRESENT controlling terminal and a stale cached
screen size. -/
def c1_loop : Loop :=
  { CreateLoop with controlling_term := some c1_term }

/-- An environment in which every external setup call succeeds, the main
iteration phase is a no-op, and flushes drain nothing. -/
def env_ok : RunEnv :=
  { pipe_err := none
    open_term := Except.ok c1_term
    set_raw := none
    loop_result := fun l => (l, none)
    flush_drain := fun b => b }

/-- An `OnInitialize` callback that fails with a distinct error. -/
def cb_init_fails : Loop → Loop × String × Option GoError :=
  fun l => (l, "", some (GoError.cbErr 1))

/-- An `OnInitialize` callback that calls `Quit(7)` and returns no
finalizer and no error. -/
def cb_init_quit7 : Loop → Loop × String × Option GoError :=
  fun l => (l.Quit 7, "", none)

/-- The finalizer string returned by `cb_init_fin`. -/
def cb_fin_string : String := "FIN"

/-- An `OnInitialize` callback that succeeds, changes nothing, and returns
the finalizer `cb_fin_string`. -/
def cb_init_fin : Loop → Loop × String × Option GoError :=
  fun l => (l, cb_fin_string, none)

/-- `env_ok` with a failing `os.Pipe()`. -/
def env_pipe_fails : RunEnv :=
  { pipe_err := some GoError.pipeFailed
    open_term := Except.ok c1_term
    set_raw := none
    loop_result := fun l => (l, none)
    flush_drain := fun b => b }

/-- `env_ok` with a failing `tty.OpenControllingTerm()`. -/
def env_term_fails : RunEnv :=
  { pipe_err := none
    open_term := Except.error GoError.openTermFailed
    set_raw := none
    loop_result := fun l => (l, none)
    flush_drain := fun b => b }

/-- `env_ok` with a failing `ApplyOperations(TCSANOW, SetRaw)`. -/
def env_raw_fails : RunEnv :=
  { pipe_err := none
    open_term := Except.ok c1_term
    set_raw := some GoError.setRawFailed
    loop_result := fun l => (l, none)
    flush_drain := fun b => b }

/-- A one-shot timer (id 1) whose deadline 0 has passed at dispatch time
5. -/
def c4_t1 : Timer := { interval := 10, deadline := 0, repeats := false, id := 1 }

/-- A timer (id 2) whose deadline 100 has not passed at dispatch time 5. -/
def c4_t2 : Timer := { interval := 100, deadline := 100, repeats := false, id := 2 }

/-- A key callback that marks the event handled and changes nothing
else. -/
def cb_mark_handled : Loop → KeyEvent → Loop × KeyEvent × Option GoError :=
  fun l ev => (l, { ev with Handled := true }, none)

/-- A key callback that inspects the event and leaves it untouched. -/
def cb_leave_unhandled : Loop → KeyEvent → Loop × KeyEvent × Option GoError :=
  fun l ev => (l, ev, none)

/-- A ctrl+c press event carrying no text, unhandled on arrival. -/
def ev_ctrl_c : KeyEvent :=
  { key := ctrl_c, kind := KeyEventType.press, Text := "", Handled := false }

/-- A ctrl+z repeat event carrying non-empty text, for witnessing that
even then `OnText` is not consulted. -/
def ev_ctrl_z_text : KeyEvent :=
  { key := ctrl_z, kind := KeyEventType.repeated, Text := "z", Handled := false }

/-- A loop state as it looks mid-iteration: running, flush armed, no death
signal recorded. -/
def st_running : Loop :=
  { CreateLoop with keep_going := true, flush_write_buf := true }

/-- The mutation sequence used by the C7 witness: two adds (the second
with the earlier deadline, so the re-sort matters), a remove, and a
further add. -/
def c7_ops : List TimerOp :=
  [TimerOp.add 0 5 false, TimerOp.add 0 3 true, TimerOp.remove 1,
   TimerOp.add 2 4 false]

/-! ## Theorems -/

/-- The reslice-and-copy in `write_buf_shift` is exactly "drop the written
head": the unwritten suffix ends up at the buffer head, unchanged. -/
theorem write_buf_shift_eq_drop (n : Nat) (buf : List Nat) :
    write_buf_shift n buf = buf.drop n := by
  unfold write_buf_shift go_copy
  by_cases h : (buf.drop n).length > 0
  · have hlen : (buf.take (buf.drop n).length).length = (buf.drop n).length := by
      simp [List.length_take, List.length_drop]
    have h2 : (buf.take (buf.drop n).length).length ≤ (buf.drop n).length := by
      rw [List.length_take]
      omega
    simp only [h, if_true]
    rw [hlen, List.take_length, List.drop_eq_nil_of_le h2, List.append_nil]
  · simp only [h, if_false]
    have hz : (buf.drop n).length = 0 := by omega
    exact (List.length_eq_zero.mp hz).symm

/-- C1: the claim says that whenever the controlling terminal is present
and the cached screen size is stale, `ScreenSize()` recomputes the size
from the terminal, marks it fresh, and returns no error.  The code does
the opposite: `update_screen_size` guards with `controlling_term != nil`
(loop.go line 101) — the branch whose error message says "No controlling
terminal" — so with a perfectly good terminal attached the query returns
that error, stores nothing, and leaves the staleness flag unset.  This
theorem evaluates the code at such a state. -/
theorem C1_stale_query_with_term_errors :
    c1_loop.controlling_term.isSome = true ∧
    c1_loop.screen_size.updated = false ∧
    (c1_loop.ScreenSize).2.2 = some GoError.noControllingTerminal ∧
    ((c1_loop.ScreenSize).1).updated = false ∧
    (c1_loop.ScreenSize).2.1.screen_size = c1_loop.screen_size := by
  refine ⟨rfl, rfl, ?_, ?_, ?_⟩ <;> decide

/-- C4: the claim says that after a dispatch in which a due one-shot timer
fired, the collection holds exactly the surviving timers, with no
nil/placeholder entries.  The rebuild in loop.go lines 528-536 allocates
`make([]*timer, n-r)` — a slice of LENGTH n-r full of nil pointers — and
appends the survivors after them, so with timers [id 1 one-shot due,
id 2 not due] at time 5 the resulting collection is `[nil, id 2]`, not
`[id 2]`.  The fired one-shot's callback did run exactly once. -/
theorem C4_one_shot_leaves_nil_placeholder :
    dispatch_timers 5 [c4_t1, c4_t2] = ([none, some c4_t2], [1]) ∧
    ((dispatch_timers 5 [c4_t1, c4_t2]).2).count 1 = 1 ∧
    (dispatch_timers 5 [c4_t1, c4_t2]).1 ≠ [some c4_t2] := by
  refine ⟨?_, ?_, ?_⟩ <;> decide

/-- C8: a `unix.Write` result of zero bytes with no error, on a non-empty
buffer with a live terminal, surfaces from `write_ignoring_temporary_errors`
as `io.EOF` and propagates out of `write_to_tty` as that distinct error —
not a retry or a silent no-op — whereas an EINTR/EAGAIN/EWOULDBLOCK result
is converted to zero progress with no error and leaves the buffer
untouched. -/
theorem C8_zero_write_is_eof (buf : List Nat) (t : Term) (e : Errno)
    (hbuf : buf ≠ [])
    (he : e = Errno.EINTR ∨ e = Errno.EAGAIN ∨ e = Errno.EWOULDBLOCK) :
    write_ignoring_temporary_errors 0 none = (0, some GoError.eof) ∧
    (Loop.write_to_tty (0, none)
      { CreateLoop with write_buf := buf, controlling_term := some t }).2
      = some GoError.eof ∧
    write_ignoring_temporary_errors 0 (some e) = (0, none) ∧
    (Loop.write_to_tty (0, some e)
      { CreateLoop with write_buf := buf, controlling_term := some t }).2 = none ∧
    ((Loop.write_to_tty (0, some e)
      { CreateLoop with write_buf := buf, controlling_term := some t }).1).write_buf
      = buf := by
  have hlen : (buf.length == 0 || (Option.some t).isNone) = false := by
    simp [List.length_eq_zero, hbuf]
  rcases he with rfl | rfl | rfl <;>
    refine ⟨by decide, ?_, by decide, ?_, ?_⟩ <;>
      simp [Loop.write_to_tty, hlen, write_ignoring_temporary_errors, hbuf]

/-- C8 witness: the theorem instantiated at the one-byte buffer `[7]`,
the fixture terminal, and `EINTR`. -/
theorem C8_zero_write_is_eof_witness :
    ([7] : List Nat) ≠ [] ∧
    (write_ignoring_temporary_errors 0 none = (0, some GoError.eof) ∧
     (Loop.write_to_tty (0, none)
       { CreateLoop with write_buf := [7], controlling_term := some c1_term }).2
       = some GoError.eof ∧
     write_ignoring_temporary_errors 0 (some Errno.EINTR) = (0, none) ∧
     (Loop.write_to_tty (0, some Errno.EINTR)
       { CreateLoop with write_buf := [7], controlling_term := some c1_term }).2
       = none ∧
     ((Loop.write_to_tty (0, some Errno.EINTR)
       { CreateLoop with write_buf := [7], controlling_term := some c1_term }).1).write_buf
       = [7]) :=
  ⟨by decide, C8_zero_write_is_eof [7] c1_term Errno.EINTR (by decide)
    (Or.inl rfl)⟩

/-- C9: a ctrl+c key event the application key callback marks handled does
not touch `keep_going` or the death signal (scenario 1: a callback that
marks the event handled and itself preserves those fields — the default
binding never runs); the same event left unhandled reaches the default
binding, which runs `on_SIGINT`: `keep_going` becomes false and the death
signal becomes `SIGINT` (scenario 2). -/
theorem C9_ctrl_c_handled_vs_unhandled
    (cb1 : Loop → KeyEvent → Loop × KeyEvent × Option GoError)
    (onText1 : Bool) (st1 st1' : Loop) (ev1 ev1' : KeyEvent)
    (h1 : cb1 st1 ev1 = (st1', ev1', none))
    (hH1 : ev1'.Handled = true)
    (hk1 : st1'.keep_going = st1.keep_going)
    (hd1 : st1'.death_signal = st1.death_signal)
    (cb2 : Loop → KeyEvent → Loop × KeyEvent × Option GoError)
    (onText2 : Bool) (st2 st2' : Loop) (ev2 ev2' : KeyEvent)
    (h2 : cb2 st2 ev2 = (st2', ev2', none))
    (hH2 : ev2'.Handled = false)
    (hM2 : ev2'.MatchesPressOrRepeat ctrl_c = true) :
    (((Loop.handle_key_event (some cb1) onText1 st1 ev1).loop).keep_going
        = st1.keep_going ∧
     ((Loop.handle_key_event (some cb1) onText1 st1 ev1).loop).death_signal
        = st1.death_signal ∧
     (Loop.handle_key_event (some cb1) onText1 st1 ev1).err = none) ∧
    (((Loop.handle_key_event (some cb2) onText2 st2 ev2).loop).keep_going
        = false ∧
     ((Loop.handle_key_event (some cb2) onText2 st2 ev2).loop).death_signal
        = Signal.SIGINT ∧
     (Loop.handle_key_event (some cb2) onText2 st2 ev2).err = none) := by
  constructor
  · simp [Loop.handle_key_event, h1, hH1, hk1, hd1]
  · simp [Loop.handle_key_event, h2, hH2, Loop.handle_key_event_defaults,
      hM2, Loop.on_SIGINT]

/-- C9 witness: both scenarios of the theorem instantiated with concrete
callbacks, the running loop state, and the ctrl+c press event. -/
theorem C9_ctrl_c_handled_vs_unhandled_witness :
    cb_mark_handled st_running ev_ctrl_c
      = (st_running, { ev_ctrl_c with Handled := true }, none) ∧
    cb_leave_unhandled st_running ev_ctrl_c = (st_running, ev_ctrl_c, none) ∧
    ((((Loop.handle_key_event (some cb_mark_handled) true st_running
          ev_ctrl_c).loop).keep_going = st_running.keep_going ∧
      (((Loop.handle_key_event (some cb_mark_handled) true st_running
          ev_ctrl_c).loop).death_signal = st_running.death_signal) ∧
      (Loop.handle_key_event (some cb_mark_handled) true st_running
          ev_ctrl_c).err = none) ∧
     (((Loop.handle_key_event (some cb_leave_unhandled) true st_running
          ev_ctrl_c).loop).keep_going = false ∧
      (((Loop.handle_key_event (some cb_leave_unhandled) true st_running
          ev_ctrl_c).loop).death_signal = Signal.SIGINT) ∧
      (Loop.handle_key_event (some cb_leave_unhandled) true st_running
          ev_ctrl_c).err = none)) :=
  ⟨rfl, rfl,
   C9_ctrl_c_handled_vs_unhandled cb_mark_handled true st_running st_running
     ev_ctrl_c { ev_ctrl_c with Handled := true } rfl rfl rfl rfl
     cb_leave_unhandled true st_running st_running ev_ctrl_c ev_ctrl_c rfl rfl
     (by decide)⟩

/-- C10: any key event the application callback left unhandled that
matches ctrl+c or ctrl+z as press or repeat comes back with its `Handled`
flag set by the default binding, which returns right after the
signal-equivalent action — `OnText` is never invoked, whatever text the
event carries (the text branch of loop.go line 145 is only reached when
neither binding matched). -/
theorem C10_default_bindings_skip_text
    (cb : Loop → KeyEvent → Loop × KeyEvent × Option GoError)
    (onTextSet : Bool) (st st' : Loop) (ev ev' : KeyEvent)
    (h : cb st ev = (st', ev', none))
    (hH : ev'.Handled = false)
    (hM : (ev'.MatchesPressOrRepeat ctrl_c || ev'.MatchesPressOrRepeat ctrl_z)
          = true) :
    ((Loop.handle_key_event (some cb) onTextSet st ev).ev).Handled = true ∧
    (Loop.handle_key_event (some cb) onTextSet st ev).text_call = none ∧
    (Loop.handle_key_event (some cb) onTextSet st ev).err = none := by
  simp only [Bool.or_eq_true] at hM
  rcases hM with hM | hM
  · simp [Loop.handle_key_event, h, hH, Loop.handle_key_event_defaults, hM,
      Loop.on_SIGINT]
  · by_cases hc : ev'.MatchesPressOrRepeat ctrl_c = true
    · simp [Loop.handle_key_event, h, hH, Loop.handle_key_event_defaults, hc,
        Loop.on_SIGINT]
    · simp [Loop.handle_key_event, h, hH, Loop.handle_key_event_defaults, hc,
        hM, Loop.on_SIGTSTP]

/-- C10 witness: the theorem instantiated with the identity callback, an
installed `OnText` callback, and a ctrl+z repeat event carrying text. -/
theorem C10_default_bindings_skip_text_witness :
    cb_leave_unhandled st_running ev_ctrl_z_text
      = (st_running, ev_ctrl_z_text, none) ∧
    ev_ctrl_z_text.Text ≠ "" ∧
    (((Loop.handle_key_event (some cb_leave_unhandled) true st_running
        ev_ctrl_z_text).ev).Handled = true ∧
     (Loop.handle_key_event (some cb_leave_unhandled) true st_running
        ev_ctrl_z_text).text_call = none ∧
     (Loop.handle_key_event (some cb_leave_unhandled) true st_running
        ev_ctrl_z_text).err = none) :=
  ⟨rfl, by decide,
   C10_default_bindings_skip_text cb_leave_unhandled true st_running st_running
     ev_ctrl_z_text ev_ctrl_z_text rfl rfl (by decide)⟩

/-- Full behaviour of the drain loop, by strong induction on the buffer
length: the chunks written concatenate back to the whole buffer (all
bytes, FIFO), the number of write calls is the ceiling of N/k, and the
write-complete callback fires exactly once on a non-empty buffer (at the
transition to empty) and never on an empty one. -/
theorem drain_loop_spec (k : Nat) (hk : k ≠ 0) :
    ∀ (L : Nat) (buf : List Nat), buf.length ≤ L →
      ((drain_loop k buf).1).flatten = buf ∧
      ((drain_loop k buf).1).length = (buf.length + k - 1) / k ∧
      (drain_loop k buf).2 = (if buf.length = 0 then 0 else 1) := by
  intro L
  induction L with
  | zero =>
    intro buf h
    have hb : buf = [] := List.length_eq_zero.mp (by omega)
    subst hb
    unfold drain_loop
    simp [Nat.div_eq_of_lt (by omega : k - 1 < k)]
  | succ L ih =>
    intro buf h
    by_cases h0 : buf.length = 0
    · have hb : buf = [] := List.length_eq_zero.mp h0
      subst hb
      unfold drain_loop
      simp [Nat.div_eq_of_lt (by omega : k - 1 < k)]
    · rw [drain_loop]
      simp only [h0, hk, dite_false]
      have hrest : (buf.drop (min k buf.length)).length ≤ L := by
        rw [List.length_drop]
        omega
      obtain ⟨ihj, ihl, ihc⟩ := ih (buf.drop (min k buf.length)) hrest
      refine ⟨?_, ?_, ?_⟩
      · rw [List.flatten_cons, ihj]
        exact List.take_append_drop _ buf
      · simp only [List.length_cons, ihl, List.length_drop]
        by_cases hkL : k < buf.length
        · have hmin : min k buf.length = k := by omega
          rw [hmin]
          have e1 : buf.length - k + k - 1 = buf.length - 1 := by omega
          have e2 : buf.length + k - 1 = (buf.length - 1) + k := by omega
          rw [e1, e2, Nat.add_div_right _ (Nat.pos_of_ne_zero hk)]
        · have hmin : min k buf.length = buf.length := by omega
          rw [hmin]
          have e1 : buf.length - buf.length = 0 := by omega
          rw [e1]
          have d1 : (0 + k - 1) / k = 0 := Nat.div_eq_of_lt (by omega)
          have d2 : (buf.length + k - 1) / k = 1 := by
            apply Nat.div_eq_of_lt_le <;> omega
          rw [d1, d2]
      · rw [ihc]
        simp only [List.length_drop]
        by_cases hz : buf.length - min k buf.length = 0
        · simp [hz]
        · simp [hz]

/-- C6: with N = `buf.length` > 0 pending bytes and a write primitive
accepting k < N bytes per call, repeated drains deliver all N bytes in
FIFO order (the chunks concatenate to the buffer), use exactly
ceil(N/k) = (N + k - 1) / k write calls, end with an empty buffer (the
chunks are everything, and the loop stops only at empty), and fire the
write-complete callback exactly once — at the transition to empty; and
each partial write leaves the unwritten suffix shifted to the buffer
head (`write_buf_shift k buf = buf.drop k`). -/
theorem C6_drain_all_bytes (buf : List Nat) (k : Nat)
    (hN : 0 < buf.length) (hk : 0 < k) (hkN : k < buf.length) :
    ((drain_loop k buf).1).flatten = buf ∧
    ((drain_loop k buf).1).length = (buf.length + k - 1) / k ∧
    (drain_loop k buf).2 = 1 ∧
    write_buf_shift k buf = buf.drop k := by
  obtain ⟨hj, hl, hc⟩ := drain_loop_spec k (by omega) buf.length buf (le_refl _)
  refine ⟨hj, hl, ?_, write_buf_shift_eq_drop k buf⟩
  rw [hc]
  simp only [Nat.pos_iff_ne_zero] at hN
  simp [hN]

/-- C6 witness: a five-byte buffer against a two-byte write primitive:
chunks [1,2],[3,4],[5] — three calls, ceil(5/2) — one completion
callback. -/
theorem C6_drain_all_bytes_witness :
    0 < ([1, 2, 3, 4, 5] : List Nat).length ∧ 0 < 2 ∧
    2 < ([1, 2, 3, 4, 5] : List Nat).length ∧
    (((drain_loop 2 [1, 2, 3, 4, 5]).1).flatten = [1, 2, 3, 4, 5] ∧
     ((drain_loop 2 [1, 2, 3, 4, 5]).1).length
        = (([1, 2, 3, 4, 5] : List Nat).length + 2 - 1) / 2 ∧
     (drain_loop 2 [1, 2, 3, 4, 5]).2 = 1 ∧
     write_buf_shift 2 [1, 2, 3, 4, 5] = ([1, 2, 3, 4, 5] : List Nat).drop 2) :=
  ⟨by decide, by decide, by decide,
   C6_drain_all_bytes [1, 2, 3, 4, 5] 2 (by decide) (by decide) (by decide)⟩

/-- The stable merge sort by `deadline_le` produces a collection sorted
ascending by deadline. -/
theorem sort_timers_sorted (ts : List Timer) : timers_sorted (sort_timers ts) := by
  have htrans : ∀ (a b c : Timer), deadline_le a b → deadline_le b c → deadline_le a c := by
    intro a b c hab hbc
    simp only [deadline_le, decide_eq_true_eq] at hab hbc ⊢
    omega
  have htotal : ∀ (a b : Timer), deadline_le a b || deadline_le b a := by
    intro a b
    simp only [deadline_le, Bool.or_eq_true, decide_eq_true_eq]
    omega
  have h := @List.sorted_mergeSort Timer deadline_le htrans htotal ts
  exact h.imp (fun hab => by simpa [deadline_le] using hab)

/-- `remove_first` only ever removes: its result is a sublist of the
input. -/
theorem remove_first_sublist (ts : List Timer) (id : Nat) :
    ((remove_first ts id).1).Sublist ts := by
  induction ts with
  | nil => simp [remove_first]
  | cons t rest ih =>
    rw [remove_first]
    by_cases h : t.id = id
    · simp only [h, if_true]
      exact List.sublist_cons_self t rest
    · simp only [h, if_false]
      exact List.cons_sublist_cons.mpr ih

/-- The sorted-by-deadline invariant holds after every mutation of a
sequence: `AddTimer` re-sorts, `RemoveTimer` takes a sublist. -/
theorem run_timer_ops_sorted (ops : List TimerOp) (self : Loop)
    (h : timers_sorted self.timers) :
    timers_sorted (((self.run_timer_ops ops).1).timers) := by
  induction ops generalizing self with
  | nil => exact h
  | cons op ops ih =>
    cases op with
    | add now interval repeats =>
      exact ih _ (sort_timers_sorted _)
    | remove id =>
      exact ih _ (List.Pairwise.sublist (remove_first_sublist _ _) h)

/-- The ids handed out along a sequence of mutations are strictly
increasing, and all exceed the counter value the sequence started from —
provided the `uint64` counter does not wrap, which needs more than
2^64 - counter operations. -/
theorem run_timer_ops_ids (ops : List TimerOp) (self : Loop)
    (h : self.timer_id_counter + ops.length < 2 ^ 64) :
    ((self.run_timer_ops ops).2).Pairwise (fun a b => a < b) ∧
    (∀ i ∈ (self.run_timer_ops ops).2, self.timer_id_counter < i) := by
  induction ops generalizing self with
  | nil =>
    constructor
    · exact List.Pairwise.nil
    · intro i hi
      simp [Loop.run_timer_ops] at hi
  | cons op ops ih =>
    cases op with
    | add now interval repeats =>
      have hlt : self.timer_id_counter + 1 < 2 ^ 64 := by
        simp only [List.length_cons] at h
        omega
      have hmod : (self.timer_id_counter + 1) % 2 ^ 64 = self.timer_id_counter + 1 :=
        Nat.mod_eq_of_lt hlt
      have hctr :
          ((self.apply_timer_op (TimerOp.add now interval repeats)).1).timer_id_counter
            = self.timer_id_counter + 1 := by
        simp [Loop.apply_timer_op, Loop.AddTimer, hmod]
        omega
      obtain ⟨ihp, ihb⟩ :=
        ih ((self.apply_timer_op (TimerOp.add now interval repeats)).1)
          (by
            rw [hctr]
            simp only [List.length_cons] at h
            omega)
      have hid :
          (self.apply_timer_op (TimerOp.add now interval repeats)).2
            = some (self.timer_id_counter + 1) := by
        simp [Loop.apply_timer_op, Loop.AddTimer, hmod]
        omega
      constructor
      · show (((self.apply_timer_op (TimerOp.add now interval repeats)).2).toList
            ++ _).Pairwise _
        rw [hid]
        simp only [Option.toList_some, List.singleton_append, List.pairwise_cons]
        refine ⟨?_, ihp⟩
        intro b hb
        have := ihb b hb
        rw [hctr] at this
        omega
      · intro i hi
        show self.timer_id_counter < i
        rw [show (self.run_timer_ops (TimerOp.add now interval repeats :: ops)).2
              = ((self.apply_timer_op (TimerOp.add now interval repeats)).2).toList
                ++ (((self.apply_timer_op (TimerOp.add now interval repeats)).1).run_timer_ops ops).2
            from rfl, hid] at hi
        simp only [Option.toList_some, List.singleton_append, List.mem_cons] at hi
        rcases hi with rfl | hi
        · omega
        · have := ihb i hi
          rw [hctr] at this
          omega
    | remove id =>
      have hctr :
          ((self.apply_timer_op (TimerOp.remove id)).1).timer_id_counter
            = self.timer_id_counter := by
        simp [Loop.apply_timer_op, Loop.RemoveTimer]
      obtain ⟨ihp, ihb⟩ :=
        ih ((self.apply_timer_op (TimerOp.remove id)).1)
          (by
            rw [hctr]
            simp only [List.length_cons] at h
            omega)
      constructor
      · exact ihp
      · intro i hi
        have := ihb i hi
        rw [hctr] at this
        omega

/-- C7: along any sequence of `AddTimer`/`RemoveTimer` operations (fewer
than 2^64 of them, so the `uint64` id counter cannot wrap), the timer
collection is sorted ascending by deadline after every mutation (i.e.
after every prefix of the sequence), and the ids returned by the
`AddTimer` calls are strictly increasing — hence unique — across the life
of the loop instance. -/
theorem C7_timer_invariants (ops : List TimerOp) (n : Nat)
    (h : ops.length < 2 ^ 64) :
    timers_sorted (((CreateLoop.run_timer_ops (ops.take n)).1).timers) ∧
    ((CreateLoop.run_timer_ops ops).2).Pairwise (fun a b => a < b) ∧
    ((CreateLoop.run_timer_ops ops).2).Nodup := by
  have hids := run_timer_ops_ids ops CreateLoop
    (by
      simp only [CreateLoop]
      omega)
  refine ⟨?_, hids.1, ?_⟩
  · exact run_timer_ops_sorted (ops.take n) CreateLoop List.Pairwise.nil
  · exact hids.1.imp (fun hab => Nat.ne_of_lt hab)

/-- C7 witness: the theorem instantiated at `c7_ops` with the prefix of
length 2. -/
theorem C7_timer_invariants_witness :
    c7_ops.length < 2 ^ 64 ∧
    (timers_sorted (((CreateLoop.run_timer_ops (c7_ops.take 2)).1).timers) ∧
     ((CreateLoop.run_timer_ops c7_ops).2).Pairwise (fun a b => a < b) ∧
     ((CreateLoop.run_timer_ops c7_ops).2).Nodup) :=
  ⟨by decide, C7_timer_invariants c7_ops 2 (by decide)⟩

/-- The shutdown defer emits exactly the `shutdown_events` block
determined by the flush flag at entry and the finalizer's emptiness. -/
theorem run_shutdown_events_eq (env : RunEnv) (fin : String) (s : Loop) :
    (s.run_shutdown env fin).2
      = shutdown_events s.flush_write_buf (!fin.isEmpty) := by
  unfold Loop.run_shutdown shutdown_events
  cases hf : s.flush_write_buf <;> cases hfin : fin.isEmpty <;> simp [hf, hfin]

/-- The shutdown defer never touches the flush flag. -/
theorem run_shutdown_flag_eq (env : RunEnv) (fin : String) (s : Loop) :
    ((s.run_shutdown env fin).1).flush_write_buf = s.flush_write_buf := by
  unfold Loop.run_shutdown Loop.flush Loop.queue_write_to_tty
  cases hf : s.flush_write_buf <;> cases hfin : fin.isEmpty <;> simp [hf, hfin]

/-- The trace of the post-init phase: the boot events, then the main-loop
phase (if `keep_going` still holds), then — defers in LIFO order — the
full shutdown block and, last, the terminal restore. -/
theorem run_main_trace_eq (env : RunEnv) (boot_ev : List RunEvent)
    (fin : String) (s : Loop) :
    (s.run_main env boot_ev fin).2.1
      = boot_ev
        ++ (if s.keep_going then [RunEvent.ev_main_loop] else [])
        ++ shutdown_events (((s.run_main env boot_ev fin).1).flush_write_buf)
             (!fin.isEmpty)
        ++ [RunEvent.ev_restore] := by
  unfold Loop.run_main restore_term
  cases hkg : s.keep_going <;>
    simp [hkg, run_shutdown_events_eq, run_shutdown_flag_eq]

/-- C2 (amended): on every exit path of `Run` that gets past a successful
`OnInitialize` — normal exits and main-loop errors alike — the shutdown
sequence runs exactly once and in order: flush of pending bytes (present
exactly when the flush flag survived, i.e. unless the HUP handler cleared
it), buffer clear, finalizer queue (when one was captured), reset-codes
queue, final bounded flush, and then, last of all, terminal
restore-and-release.  (The unamended claim — "every exit path after boot
begins, including early returns caused by errors" — is refuted by
`C2_counterexample` below: boot-phase error exits skip the block because
the shutdown defer of line 352 is only installed after `OnInitialize`
succeeds.) -/
theorem C2_shutdown_after_successful_init (env : RunEnv)
    (cb : Loop → Loop × String × Option GoError)
    (self0 st1 : Loop) (fin : String) (term : Term)
    (hpipe : env.pipe_err = none) (hterm : env.open_term = Except.ok term)
    (hraw : env.set_raw = none)
    (hcb : cb (boot_state term self0) = (st1, fin, none)) :
    ((shutdown_events (((self0.Run env (some cb)).1).flush_write_buf)
        (!fin.isEmpty)) ++ [RunEvent.ev_restore]).Sublist
      ((self0.Run env (some cb)).2.1) ∧
    ((self0.Run env (some cb)).2.1).count RunEvent.ev_clear_buf = 1 ∧
    ((self0.Run env (some cb)).2.1).count RunEvent.ev_queue_reset = 1 ∧
    ((self0.Run env (some cb)).2.1).count RunEvent.ev_final_flush = 1 ∧
    ((self0.Run env (some cb)).2.1).count RunEvent.ev_flush
      = (if ((self0.Run env (some cb)).1).flush_write_buf then 1 else 0) ∧
    ((self0.Run env (some cb)).2.1).count RunEvent.ev_restore = 1 ∧
    ((self0.Run env (some cb)).2.1).getLast? = some RunEvent.ev_restore := by
  have hrun : self0.Run env (some cb)
      = st1.run_main env [RunEvent.ev_run_init_cb] fin := by
    unfold Loop.Run
    rw [hpipe, hterm, hraw]
    simp [hcb]
  rw [hrun]
  rw [run_main_trace_eq]
  cases hkg : st1.keep_going <;>
    cases hflag : ((st1.run_main env [RunEvent.ev_run_init_cb] fin).1).flush_write_buf <;>
      cases hfe : fin.isEmpty <;>
        simp_all [shutdown_events, List.count_append]

/-- C2 counterexample: the unamended claim fails on the exit path where
`OnInitialize` returns an error — boot has begun (the init callback event
is in the trace) and the terminal restore runs, but the shutdown block
(buffer clear, reset-codes queue, final flush) runs zero times, because
the shutdown defer is installed only after a successful `OnInitialize`. -/
theorem C2_counterexample :
    (CreateLoop.Run env_ok (some cb_init_fails)).2.2 = some (GoError.cbErr 1) ∧
    RunEvent.ev_run_init_cb ∈ (CreateLoop.Run env_ok (some cb_init_fails)).2.1 ∧
    ((CreateLoop.Run env_ok (some cb_init_fails)).2.1).count
      RunEvent.ev_clear_buf = 0 ∧
    ((CreateLoop.Run env_ok (some cb_init_fails)).2.1).count
      RunEvent.ev_queue_reset = 0 ∧
    ((CreateLoop.Run env_ok (some cb_init_fails)).2.1).count
      RunEvent.ev_final_flush = 0 ∧
    ((CreateLoop.Run env_ok (some cb_init_fails)).2.1).count
      RunEvent.ev_restore = 1 := by
  refine ⟨?_, ?_, ?_, ?_, ?_, ?_⟩ <;> decide

/-- C2 witness: the amended theorem instantiated at the all-success
environment with an `OnInitialize` that returns finalizer "FIN". -/
theorem C2_shutdown_after_successful_init_witness :
    env_ok.pipe_err = none ∧
    env_ok.open_term = Except.ok c1_term ∧
    env_ok.set_raw = none ∧
    cb_init_fin (boot_state c1_term CreateLoop)
      = (boot_state c1_term CreateLoop, cb_fin_string, none) ∧
    (((shutdown_events
        (((CreateLoop.Run env_ok (some cb_init_fin)).1).flush_write_buf)
        (!cb_fin_string.isEmpty)) ++ [RunEvent.ev_restore]).Sublist
       ((CreateLoop.Run env_ok (some cb_init_fin)).2.1) ∧
     ((CreateLoop.Run env_ok (some cb_init_fin)).2.1).count
        RunEvent.ev_clear_buf = 1 ∧
     ((CreateLoop.Run env_ok (some cb_init_fin)).2.1).count
        RunEvent.ev_queue_reset = 1 ∧
     ((CreateLoop.Run env_ok (some cb_init_fin)).2.1).count
        RunEvent.ev_final_flush = 1 ∧
     ((CreateLoop.Run env_ok (some cb_init_fin)).2.1).count
        RunEvent.ev_flush
       = (if ((CreateLoop.Run env_ok (some cb_init_fin)).1).flush_write_buf
          then 1 else 0) ∧
     ((CreateLoop.Run env_ok (some cb_init_fin)).2.1).count
        RunEvent.ev_restore = 1 ∧
     ((CreateLoop.Run env_ok (some cb_init_fin)).2.1).getLast?
       = some RunEvent.ev_restore) :=
  ⟨rfl, rfl, rfl, rfl,
   C2_shutdown_after_successful_init env_ok cb_init_fin CreateLoop
     (boot_state c1_term CreateLoop) cb_fin_string c1_term rfl rfl rfl rfl⟩

/-- C3: the claim says `Quit(7)` during ANY callback — the initialization
callback included — leaves `ExitCode() = 7` after `Run` returns.  The
code resets `exit_code` to 0 on line 368, AFTER `OnInitialize` has run,
so a `Quit(7)` issued inside the initialization callback is wiped out:
the loop does stop before iterating (`keep_going` stays false, no
main-loop event) and the shutdown sequence runs, but `Run` returns with
`ExitCode() = 0`, not 7.  This theorem evaluates the code on that
input. -/
theorem C3_quit_in_init_cb_is_wiped :
    ((CreateLoop.Run env_ok (some cb_init_quit7)).1).ExitCode = 0 ∧
    ((CreateLoop.Run env_ok (some cb_init_quit7)).1).ExitCode ≠ 7 ∧
    (CreateLoop.Run env_ok (some cb_init_quit7)).2.2 = none ∧
    RunEvent.ev_main_loop ∉ (CreateLoop.Run env_ok (some cb_init_quit7)).2.1 ∧
    ((CreateLoop.Run env_ok (some cb_init_quit7)).2.1).count
      RunEvent.ev_clear_buf = 1 := by
  refine ⟨?_, ?_, ?_, ?_, ?_⟩ <;> decide

/-- C5: the claim says every setup failure (signal pipe, controlling
terminal, raw-mode switch) is fatal — `Run` returns that non-nil error —
and happens before any application callback.  Pipe and terminal failures
do return their errors, and indeed no callback event ever enters the
trace; but a raw-mode failure takes the `return nil` of loop.go line 334,
where the freshly checked non-nil error is dropped: `Run` returns nil.
This theorem evaluates the code on all three failure environments. -/
theorem C5_setup_failures :
    (CreateLoop.Run env_pipe_fails (some cb_init_quit7)).2.2
      = some GoError.pipeFailed ∧
    RunEvent.ev_run_init_cb ∉
      (CreateLoop.Run env_pipe_fails (some cb_init_quit7)).2.1 ∧
    (CreateLoop.Run env_term_fails (some cb_init_quit7)).2.2
      = some GoError.openTermFailed ∧
    RunEvent.ev_run_init_cb ∉
      (CreateLoop.Run env_term_fails (some cb_init_quit7)).2.1 ∧
    env_raw_fails.set_raw = some GoError.setRawFailed ∧
    (CreateLoop.Run env_raw_fails (some cb_init_quit7)).2.2 = none ∧
    RunEvent.ev_run_init_cb ∉
      (CreateLoop.Run env_raw_fails (some cb_init_quit7)).2.1 := by
  refine ⟨?_, ?_, ?_, ?_, ?_, ?_, ?_⟩ <;> decide

end TuiLoop
